import Mathlib

/-!
Shallow embedding of the credit-policy derivation pipeline of
`src/tools/ap_report/ap_workflow.py` (function `process_invoices`,
lines 166-274), together with the caller-visible effect the function has
on its input dataframe.

Modelling conventions:
* dates are day numbers (`ℤ`); a raw date cell either parses in the fixed
  `%d %b %Y` format to a day number, is unparseable text, or is empty;
* monetary amounts and configuration rates are exact rationals (`ℚ`);
  the 2-decimal rounding used by pandas / Python `round` is modelled as
  round-half-to-even;
* the only exception the function raises is Python's builtin `ValueError`
  (line 188); failure is an `Except` value;
* `pd.to_datetime(col, errors=coerce)` turns unparseable cells into
  missing values (`NaT`), modelled by `parseDate`;
* `process_invoices` returns both the computed report and the state of the
  caller's dataframe after the call: the header rename on line 179 is an
  in-place mutation, and in the branch without a `Status` column the date
  conversion on line 196 writes through to the caller's frame (the
  filtered frame created on line 183 is a fresh copy, so in the other
  branch the conversion does not).
-/

/-- A raw cell of one of the three date columns: either text that parses in
the fixed day-month-year format to day number `d`, unparseable text, or an
empty (null) cell. -/
inductive DateCell
  | parsed (d : ℤ)
  | unparseable (s : String)
  | missing
  deriving DecidableEq

/-- Conversion of one date cell, as in `pd.to_datetime(col, errors=coerce,
format=d b Y)` (line 196): unparseable text becomes a missing value. -/
def parseDate : DateCell → DateCell
  | .parsed d => .parsed d
  | .unparseable _ => .missing
  | .missing => .missing

/-- The day number held by a date cell, if any. -/
def DateCell.toDate : DateCell → Option ℤ
  | .parsed d => some d
  | _ => none

/-- One invoice record (one row of the uploaded sheet). -/
structure Row where
  contact : String
  status : String
  invoice_date : DateCell
  due_date : DateCell
  last_payment_date : DateCell
  invoice_total : ℚ
  deriving DecidableEq

/-- The caller's dataframe: a list of column headers plus the rows. -/
structure Table where
  headers : List String
  rows : List Row
  deriving DecidableEq

/-- The configuration passed to `process_invoices` (lines 166-174). -/
structure Config where
  credit_terms : ℚ
  wacc : ℚ
  days_in_year : ℚ
  top_clients_cutoff : ℚ
  intense_schedule : String
  normal_schedule : String

/-- The Python exceptions raised by `process_invoices`: the only `raise`
statement in the function (line 188) raises the builtin `ValueError`; the
repository defines no custom exception classes. -/
inductive PyError
  | valueError (msg : String)
  deriving DecidableEq

/-- The per-contact aggregate built by `groupby(Contact).agg` (lines
220-224). -/
structure Agg where
  contact : String
  total_invoice_sum : ℚ
  late_payment_impact_amount : ℚ
  number_of_delays : ℕ
  deriving DecidableEq

/-- One row of the returned report, the columns selected on lines 269-274. -/
structure OutRow where
  contact : String
  high_value : String
  late_fee_applicable : Bool
  number_of_delays : ℕ
  reduction_in_term_days : ℚ
  revised_credit_terms : ℚ
  risk : String
  schedule : String
  deriving DecidableEq

/-- Whitespace characters removed by the pandas string `strip`. -/
def isSpaceChar (c : Char) : Bool :=
  c = ' ' || c = '\t' || c = '\n' || c = '\r'

/-- Strip leading and trailing whitespace from a character list. -/
def trimChars (l : List Char) : List Char :=
  ((l.dropWhile isSpaceChar).reverse.dropWhile isSpaceChar).reverse

/-- Header cleaning of line 179: strip whitespace, then replace each space
by an underscore. -/
def cleanHeader (s : String) : String :=
  String.mk ((trimChars s.data).map fun c => if c = ' ' then '_' else c)

/-- Cleaned header list of the dataframe, after the line 179 rename. -/
def cleanHeaders (hs : List String) : List String :=
  hs.map cleanHeader

/-- Round a rational to the nearest integer, ties to even (the rounding of
numpy `round` and Python `round`). -/
def roundHalfEven (q : ℚ) : ℤ :=
  if q - ⌊q⌋ < 1/2 then ⌊q⌋
  else if 1/2 < q - ⌊q⌋ then ⌊q⌋ + 1
  else if ⌊q⌋ % 2 = 0 then ⌊q⌋ else ⌊q⌋ + 1

/-- Rounding to 2 decimal places (`round(x, 2)` / `.round(2)`). -/
def round2 (q : ℚ) : ℚ :=
  (roundHalfEven (q * 100) : ℚ) / 100

/-- The date-conversion loop of lines 193-198: each of the three date
columns that is present in the (cleaned) header list is converted;
absent columns are skipped with a warning. -/
def parseRowDates (hs : List String) (r : Row) : Row :=
  { r with
    invoice_date :=
      if "Invoice_Date" ∈ hs then parseDate r.invoice_date else r.invoice_date
    due_date :=
      if "Due_Date" ∈ hs then parseDate r.due_date else r.due_date
    last_payment_date :=
      if "Last_Payment_Date" ∈ hs then parseDate r.last_payment_date
      else r.last_payment_date }

/-- `Is_Late` (line 204): the pandas comparison `Last_Payment_Date >
Due_Date` is `False` whenever either side is missing (`NaT`). -/
def is_late (r : Row) : Bool :=
  match r.last_payment_date.toDate, r.due_date.toDate with
  | some l, some d => decide (d < l)
  | _, _ => false

/-- `Days_Late` (lines 205-209): the day difference when late, else 0. -/
def days_late (r : Row) : ℤ :=
  match r.last_payment_date.toDate, r.due_date.toDate with
  | some l, some d => if d < l then l - d else 0
  | _, _ => 0

/-- `Late_Impact` (lines 210-216): `Days_Late * Invoice_Total * wacc *
(1/days_in_year)` when late, else 0, rounded to 2 decimals. -/
def late_impact (cfg : Config) (r : Row) : ℚ :=
  if is_late r then
    round2 ((days_late r : ℚ) * r.invoice_total * cfg.wacc * (1 / cfg.days_in_year))
  else 0

/-- The status filter of lines 182-190: when a `Status` column is present,
keep only rows whose status is exactly Paid; otherwise keep everything. -/
def statusFiltered (t : Table) : List Row :=
  if "Status" ∈ cleanHeaders t.headers then
    t.rows.filter fun r => decide (r.status = "Paid")
  else t.rows

/-- The rows after the status filter and the date conversion of lines
193-198. -/
def parsedRows (t : Table) : List Row :=
  (statusFiltered t).map (parseRowDates (cleanHeaders t.headers))

/-- `df.dropna(subset=[Last_Payment_Date])` (line 202): a row is dropped
exactly when its last-payment cell is a missing value. -/
def dateFiltered (t : Table) : List Row :=
  (parsedRows t).filter fun r => decide (r.last_payment_date ≠ DateCell.missing)

/-- The distinct contacts in ascending order, as produced by
`groupby(Contact)` (line 220), which sorts its keys. -/
def contacts (rows : List Row) : List String :=
  List.insertionSort (fun a b : String => a ≤ b) ((rows.map fun r => r.contact).dedup)

/-- The aggregate of one contact group (lines 220-224). -/
def aggFor (cfg : Config) (rows : List Row) (c : String) : Agg :=
  let g := rows.filter fun r => decide (r.contact = c)
  { contact := c
    total_invoice_sum := (g.map fun r => r.invoice_total).sum
    late_payment_impact_amount := (g.map fun r => late_impact cfg r).sum
    number_of_delays := (g.filter fun r => is_late r).length }

/-- The per-contact aggregate table of lines 220-224, one row per distinct
contact, keys in ascending order. -/
def aggregates (cfg : Config) (rows : List Row) : List Agg :=
  (contacts rows).map (aggFor cfg rows)

/-- The pandas `Series.quantile` with the default linear interpolation
between order statistics (line 227): for sorted values `v_0 .. v_(n-1)` and
probability `q`, interpolate at position `q * (n-1)`. -/
def quantileLinear (l : List ℚ) (q : ℚ) : ℚ :=
  match List.insertionSort (fun a b : ℚ => a ≤ b) l with
  | [] => 0
  | x :: xs =>
    let n : ℕ := xs.length + 1
    let h : ℚ := q * ((n : ℚ) - 1)
    let i : ℕ := min (⌊h⌋.toNat) (n - 1)
    let g : ℚ := h - (⌊h⌋ : ℚ)
    let lo := (x :: xs).getD i x
    let hi := (x :: xs).getD (min (i + 1) (n - 1)) x
    lo + g * (hi - lo)

/-- Maximum of a list of rationals, as `Series.max` (line 235); the empty
case never feeds a comparison because the report is then empty as well. -/
def listMax : List ℚ → ℚ
  | [] => 0
  | x :: xs => xs.foldl max x

/-- `Relative_Impact` (lines 235-238): percentage of the maximal late
impact, guarded so that the division only happens when the maximum is
strictly positive. -/
def relativeImpact (maxImpact x : ℚ) : ℚ :=
  if 0 < maxImpact then round2 (x / maxImpact * 100) else 0

/-- `Reduction_in_Term_Days` (lines 243-249): ceiling of the raw reduction
to a multiple of 5, clipped from above at the credit terms. -/
def reduction_in_term_days (cfg : Config) (rel : ℚ) (delays : ℕ) : ℚ :=
  min cfg.credit_terms ((⌈(rel * (delays : ℚ) * (1 / 100)) / 5⌉ : ℚ) * 5)

/-- `Revised_Credit_Terms` (lines 252-255): the credit terms minus the
reduction, clipped from below at 0. -/
def revised_credit_terms (cfg : Config) (red : ℚ) : ℚ :=
  max 0 (cfg.credit_terms - red)

/-- Derivation of one report row from one contact aggregate, given the
high-value threshold (line 227) and the maximal late impact (line 235):
lines 228-232 and 236-267. -/
def deriveRow (cfg : Config) (threshold maxImpact : ℚ) (a : Agg) : OutRow :=
  let hv : String := if threshold ≤ a.total_invoice_sum then "Yes" else "No"
  let rel := relativeImpact maxImpact a.late_payment_impact_amount
  let red := reduction_in_term_days cfg rel a.number_of_delays
  let risk : String :=
    if hv = "No" ∧ 0 < a.number_of_delays then "High" else "Normal"
  { contact := a.contact
    high_value := hv
    late_fee_applicable := decide (1 < a.number_of_delays)
    number_of_delays := a.number_of_delays
    reduction_in_term_days := red
    revised_credit_terms := revised_credit_terms cfg red
    risk := risk
    schedule :=
      if risk = "High" ∧ hv = "No" then cfg.intense_schedule
      else cfg.normal_schedule }

/-- The report built from a table that survived the status filter: steps 3
to 8 of `process_invoices` (lines 200-274). -/
def outputRows (cfg : Config) (t : Table) : List OutRow :=
  let aggs := aggregates cfg (dateFiltered t)
  let threshold :=
    quantileLinear (aggs.map fun a => a.total_invoice_sum) (1 - cfg.top_clients_cutoff)
  let maxImpact := listMax (aggs.map fun a => a.late_payment_impact_amount)
  aggs.map (deriveRow cfg threshold maxImpact)

/-- The message of the `ValueError` raised on line 188. -/
def noPaidMsg : String :=
  "No paid invoices found after filtering - check your Status column values"

/-- The caller's dataframe after a call to `process_invoices`: the header
rename of line 179 is always visible in place; the date conversion of line
196 writes through to the caller's frame only when there is no `Status`
column, because line 183 otherwise rebinds `df` to a fresh filtered copy. -/
def callerTable (t : Table) : Table :=
  { headers := cleanHeaders t.headers
    rows :=
      if "Status" ∈ cleanHeaders t.headers then t.rows else parsedRows t }

/-- The function `process_invoices` (lines 166-274). The first component is
the returned report, or the raised exception; the second component is the
caller's dataframe after the call. -/
def process_invoices (cfg : Config) (t : Table) :
    Except PyError (List OutRow) × Table :=
  if "Status" ∈ cleanHeaders t.headers ∧ (statusFiltered t).isEmpty then
    (.error (.valueError noPaidMsg), callerTable t)
  else
    (.ok (outputRows cfg t), callerTable t)

/-- A rational is a multiple of 5. -/
def Mult5 (q : ℚ) : Prop :=
  ∃ k : ℤ, q = 5 * k

/-- The table has the five columns the pipeline reads unconditionally
(their absence makes the Python code fail with a `KeyError`, a path outside
the scope of the embedding). -/
def hasStdColumns (t : Table) : Prop :=
  "Contact" ∈ cleanHeaders t.headers ∧
  "Invoice_Total" ∈ cleanHeaders t.headers ∧
  "Invoice_Date" ∈ cleanHeaders t.headers ∧
  "Due_Date" ∈ cleanHeaders t.headers ∧
  "Last_Payment_Date" ∈ cleanHeaders t.headers

instance (t : Table) : Decidable (hasStdColumns t) := by
  unfold hasStdColumns; infer_instance

instance {ε α : Type} [DecidableEq ε] [DecidableEq α] : DecidableEq (Except ε α) :=
  fun x y =>
    match x, y with
    | .ok a, .ok b =>
      if h : a = b then .isTrue (h ▸ rfl)
      else .isFalse (by intro he; cases he; exact h rfl)
    | .error a, .error b =>
      if h : a = b then .isTrue (h ▸ rfl)
      else .isFalse (by intro he; cases he; exact h rfl)
    | .ok _, .error _ => .isFalse fun h => Except.noConfusion h
    | .error _, .ok _ => .isFalse fun h => Except.noConfusion h

set_option maxRecDepth 100000

/-! Helper lemmas about the pipeline. -/

lemma process_invoices_ok {cfg : Config} {t : Table} {out : List OutRow}
    (h : (process_invoices cfg t).1 = Except.ok out) : out = outputRows cfg t := by
  unfold process_invoices at h
  split at h
  · exact absurd h (by simp)
  · exact (Except.ok.inj h).symm

lemma mem_outputRows {cfg : Config} {t : Table} {row : OutRow}
    (h : row ∈ outputRows cfg t) :
    ∃ a ∈ aggregates cfg (dateFiltered t),
      row = deriveRow cfg
        (quantileLinear ((aggregates cfg (dateFiltered t)).map fun a => a.total_invoice_sum)
          (1 - cfg.top_clients_cutoff))
        (listMax ((aggregates cfg (dateFiltered t)).map fun a => a.late_payment_impact_amount))
        a := by
  simp only [outputRows] at h
  rcases List.mem_map.mp h with ⟨a, ha, rfl⟩
  exact ⟨a, ha, rfl⟩

lemma mem_statusFiltered {t : Table} {r : Row} (h : r ∈ statusFiltered t) :
    r ∈ t.rows := by
  unfold statusFiltered at h
  split at h
  · exact List.mem_of_mem_filter h
  · exact h

lemma mem_dateFiltered {t : Table} {r : Row} (h : r ∈ dateFiltered t) :
    ∃ r₀ ∈ t.rows, r = parseRowDates (cleanHeaders t.headers) r₀ := by
  have h1 : r ∈ parsedRows t := List.mem_of_mem_filter h
  rcases List.mem_map.mp h1 with ⟨r₀, hr₀, rfl⟩
  exact ⟨r₀, mem_statusFiltered hr₀, rfl⟩

lemma roundHalfEven_nonneg {q : ℚ} (h : 0 ≤ q) : 0 ≤ roundHalfEven q := by
  have hf : (0 : ℤ) ≤ ⌊q⌋ := Int.floor_nonneg.mpr h
  unfold roundHalfEven
  split_ifs <;> omega

lemma round2_nonneg {q : ℚ} (h : 0 ≤ q) : 0 ≤ round2 q := by
  unfold round2
  have := roundHalfEven_nonneg (q := q * 100) (by positivity)
  positivity

lemma days_late_nonneg (r : Row) : 0 ≤ days_late r := by
  unfold days_late
  cases hl : r.last_payment_date.toDate <;> cases hd : r.due_date.toDate <;> simp
  split_ifs with h <;> omega

lemma late_impact_nonneg {cfg : Config} {r : Row} (hw : 0 ≤ cfg.wacc)
    (hdy : 0 < cfg.days_in_year) (ht : 0 ≤ r.invoice_total) :
    0 ≤ late_impact cfg r := by
  unfold late_impact
  split_ifs with h
  · apply round2_nonneg
    have hdl : (0 : ℚ) ≤ (days_late r : ℚ) := by exact_mod_cast days_late_nonneg r
    have hdi : (0 : ℚ) ≤ 1 / cfg.days_in_year := by positivity
    exact mul_nonneg (mul_nonneg (mul_nonneg hdl ht) hw) hdi
  · exact le_rfl

lemma parseRowDates_invoice_total (hs : List String) (r : Row) :
    (parseRowDates hs r).invoice_total = r.invoice_total := rfl

lemma agg_impact_nonneg {cfg : Config} {t : Table} {a : Agg}
    (hw : 0 ≤ cfg.wacc) (hdy : 0 < cfg.days_in_year)
    (ht : ∀ r ∈ t.rows, 0 ≤ r.invoice_total)
    (ha : a ∈ aggregates cfg (dateFiltered t)) :
    0 ≤ a.late_payment_impact_amount := by
  rcases List.mem_map.mp ha with ⟨c, _, rfl⟩
  dsimp only [aggFor]
  apply List.sum_nonneg
  intro x hx
  rcases List.mem_map.mp hx with ⟨r, hr, rfl⟩
  rcases mem_dateFiltered (List.mem_of_mem_filter hr) with ⟨r₀, hr₀, rfl⟩
  exact late_impact_nonneg hw hdy (ht r₀ hr₀)

lemma relativeImpact_nonneg {m x : ℚ} (hx : 0 ≤ x) : 0 ≤ relativeImpact m x := by
  unfold relativeImpact
  split_ifs with h
  · exact round2_nonneg (by positivity)
  · exact le_rfl

lemma reduction_in_term_days_props (cfg : Config) (rel : ℚ) (delays : ℕ)
    (hct : 0 ≤ cfg.credit_terms) (hrel : 0 ≤ rel) :
    0 ≤ reduction_in_term_days cfg rel delays ∧
    reduction_in_term_days cfg rel delays ≤ cfg.credit_terms ∧
    (Mult5 (reduction_in_term_days cfg rel delays) ∨
      reduction_in_term_days cfg rel delays = cfg.credit_terms) := by
  unfold reduction_in_term_days
  have hceil : (0 : ℚ) ≤ (⌈(rel * (delays : ℚ) * (1 / 100)) / 5⌉ : ℚ) := by
    have h0 : (0 : ℚ) ≤ (rel * (delays : ℚ) * (1 / 100)) / 5 := by positivity
    exact_mod_cast Int.ceil_nonneg h0
  refine ⟨le_min hct (by linarith), min_le_left _ _, ?_⟩
  rcases min_cases cfg.credit_terms ((⌈(rel * (delays : ℚ) * (1 / 100)) / 5⌉ : ℚ) * 5) with
    ⟨h, _⟩ | ⟨h, _⟩
  · right
    exact h
  · left
    exact ⟨⌈(rel * (delays : ℚ) * (1 / 100)) / 5⌉, by rw [h]; ring⟩

lemma deriveRow_number_of_delays (cfg : Config) (th mx : ℚ) (a : Agg) :
    (deriveRow cfg th mx a).number_of_delays = a.number_of_delays := rfl

lemma deriveRow_late_fee (cfg : Config) (th mx : ℚ) (a : Agg) :
    (deriveRow cfg th mx a).late_fee_applicable = decide (1 < a.number_of_delays) := rfl

lemma deriveRow_reduction (cfg : Config) (th mx : ℚ) (a : Agg) :
    (deriveRow cfg th mx a).reduction_in_term_days =
      reduction_in_term_days cfg (relativeImpact mx a.late_payment_impact_amount)
        a.number_of_delays := rfl

lemma deriveRow_revised (cfg : Config) (th mx : ℚ) (a : Agg) :
    (deriveRow cfg th mx a).revised_credit_terms =
      revised_credit_terms cfg ((deriveRow cfg th mx a).reduction_in_term_days) := rfl

lemma deriveRow_high_value (cfg : Config) (th mx : ℚ) (a : Agg) :
    (deriveRow cfg th mx a).high_value =
      (if th ≤ a.total_invoice_sum then "Yes" else "No") := rfl

lemma deriveRow_risk (cfg : Config) (th mx : ℚ) (a : Agg) :
    (deriveRow cfg th mx a).risk =
      (if (deriveRow cfg th mx a).high_value = "No" ∧ 0 < a.number_of_delays
        then "High" else "Normal") := rfl

/-! Concrete scenario data used by the claims. -/

/-- The standard column headers of the uploaded sheet, as exported (spaces
are turned into underscores by the cleaning step). -/
def stdHeaders : List String :=
  ["Contact", "Invoice Date", "Due Date", "Last Payment Date", "Status",
   "Invoice Total"]

/-- The worked-scenario configuration: wacc 0.10, 360-day year, 30-day
credit terms, top-value fraction 0.25. -/
def cfgStd : Config :=
  { credit_terms := 30, wacc := 1/10, days_in_year := 360,
    top_clients_cutoff := 1/4,
    intense_schedule := "intense", normal_schedule := "normal" }

/-- A paid invoice of contact Acme for 1000, paid 10 days after its due
date. -/
def acmeRow (d : ℤ) : Row :=
  { contact := "Acme", status := "Paid", invoice_date := .missing,
    due_date := .parsed d, last_payment_date := .parsed (d + 10),
    invoice_total := 1000 }

/-- The worked scenario of the spec: two paid Acme invoices of 1000 each,
each paid 10 days late. -/
def tblC1 : Table :=
  { headers := stdHeaders, rows := [acmeRow 0, acmeRow 50] }

/-- The report row the code actually produces for the worked scenario. -/
def acmeOut : OutRow :=
  { contact := "Acme", high_value := "Yes", late_fee_applicable := true,
    number_of_delays := 2, reduction_in_term_days := 5,
    revised_credit_terms := 25, risk := "Normal", schedule := "normal" }

/-- C1: the claim says the worked scenario yields term_reduction_days = 10
and revised_credit_term_days = 20. The code computes
ceil((100 * 2 / 100) / 5) * 5 = ceil(0.4) * 5 = 5, not 10, so the output
row has reduction 5 and revised terms 25; the claimed 10 and 20 are wrong
(the spec's own formula evaluates to 5). -/
theorem C1_counterexample :
    (process_invoices cfgStd tblC1).1 = Except.ok [acmeOut] ∧
    acmeOut.reduction_in_term_days ≠ 10 ∧ acmeOut.revised_credit_terms ≠ 20 :=
  ⟨by with_unfolding_all decide, by with_unfolding_all decide,
   by with_unfolding_all decide⟩

/-- C1 (amended): for the worked scenario (single contact Acme, two paid
invoices of 1000 each, each 10 days late, wacc 0.10, 360-day year, 30-day
terms, top fraction 0.25) the pipeline produces delay_count 2, late impact
2.78 per invoice, late_impact_amount 5.56, relative_impact_pct 100,
term_reduction_days 5, revised_credit_term_days 25, high_value Yes and
risk_level Normal. -/
theorem C1_amended_scenario :
    late_impact cfgStd (parseRowDates (cleanHeaders tblC1.headers) (acmeRow 0)) = 278/100 ∧
    late_impact cfgStd (parseRowDates (cleanHeaders tblC1.headers) (acmeRow 50)) = 278/100 ∧
    aggregates cfgStd (dateFiltered tblC1) =
      [{ contact := "Acme", total_invoice_sum := 2000,
         late_payment_impact_amount := 556/100, number_of_delays := 2 }] ∧
    relativeImpact
      (listMax ((aggregates cfgStd (dateFiltered tblC1)).map
        fun a => a.late_payment_impact_amount)) (556/100) = 100 ∧
    (process_invoices cfgStd tblC1).1 = Except.ok [acmeOut] := by
  refine ⟨?_, ?_, ?_, ?_, ?_⟩ <;> with_unfolding_all decide

/-- Configuration with a 3-day credit term (the slider allows any
non-negative integer). -/
def cfgC2 : Config :=
  { credit_terms := 3, wacc := 1/10, days_in_year := 360,
    top_clients_cutoff := 1/4,
    intense_schedule := "intense", normal_schedule := "normal" }

/-- A single late Acme invoice. -/
def tblC2 : Table :=
  { headers := stdHeaders, rows := [acmeRow 0] }

/-- The report row produced for `tblC2` under `cfgC2`: the raw reduction 5
is clipped at the 3-day credit term. -/
def outC2 : OutRow :=
  { contact := "Acme", high_value := "Yes", late_fee_applicable := false,
    number_of_delays := 1, reduction_in_term_days := 3,
    revised_credit_terms := 0, risk := "Normal", schedule := "normal" }

/-- C2: the claim says term_reduction_days is always a non-negative
multiple of 5. With credit_term_days = 3 and one late invoice the raw
reduction 5 is clipped to 3 (line 249), which is not a multiple of 5, so
the claim fails. -/
theorem C2_counterexample :
    (process_invoices cfgC2 tblC2).1 = Except.ok [outC2] ∧
    outC2.reduction_in_term_days = 3 ∧ ¬ Mult5 outC2.reduction_in_term_days := by
  refine ⟨by with_unfolding_all decide, by with_unfolding_all decide, ?_⟩
  rintro ⟨k, hk⟩
  simp only [outC2] at hk
  have hki : (3 : ℤ) = 5 * k := by exact_mod_cast hk
  omega

/-- C2 (amended): for every input table with the standard columns, invoice
totals that are non-negative, and a valid configuration (non-negative
credit terms and wacc, positive days_in_year), every output row's
term_reduction_days is non-negative, never exceeds credit_term_days, and
is either a multiple of 5 or exactly equal to credit_term_days (the cap of
line 249). -/
theorem C2_amended_reduction (cfg : Config) (t : Table) (out : List OutRow)
    (row : OutRow) (hst : hasStdColumns t)
    (hct : 0 ≤ cfg.credit_terms) (hw : 0 ≤ cfg.wacc)
    (hdy : 0 < cfg.days_in_year) (ht : ∀ r ∈ t.rows, 0 ≤ r.invoice_total)
    (hok : (process_invoices cfg t).1 = Except.ok out) (hrow : row ∈ out) :
    0 ≤ row.reduction_in_term_days ∧
    row.reduction_in_term_days ≤ cfg.credit_terms ∧
    (Mult5 row.reduction_in_term_days ∨
      row.reduction_in_term_days = cfg.credit_terms) := by
  have hout := process_invoices_ok hok
  subst hout
  rcases mem_outputRows hrow with ⟨a, ha, rfl⟩
  rw [deriveRow_reduction]
  exact reduction_in_term_days_props cfg _ _ hct
    (relativeImpact_nonneg (agg_impact_nonneg hw hdy ht ha))

/-- C2 witness: the amended statement instantiated at the concrete 3-day
configuration. -/
theorem C2_witness :
    hasStdColumns tblC2 ∧ (0 : ℚ) ≤ cfgC2.credit_terms ∧
    (0 ≤ outC2.reduction_in_term_days ∧
      outC2.reduction_in_term_days ≤ cfgC2.credit_terms ∧
      (Mult5 outC2.reduction_in_term_days ∨
        outC2.reduction_in_term_days = cfgC2.credit_terms)) :=
  ⟨by with_unfolding_all decide, by with_unfolding_all decide,
   C2_amended_reduction cfgC2 tblC2 [outC2] outC2
     (by with_unfolding_all decide) (by with_unfolding_all decide)
     (by with_unfolding_all decide) (by with_unfolding_all decide)
     (by with_unfolding_all decide) (by with_unfolding_all decide)
     (by with_unfolding_all decide)⟩

/-- A paid invoice whose last-payment cell does not parse in the expected
date format. -/
def tblC3 : Table :=
  { headers := stdHeaders,
    rows := [{ contact := "Acme", status := "Paid", invoice_date := .missing,
               due_date := .parsed 0,
               last_payment_date := .unparseable "pending",
               invoice_total := 1000 }] }

/-- C3: the claim says that when every record surviving the status filter
lacks a parseable last_payment_date, the function fails with an
EmptyAfterDateFilterError. No such error exists anywhere in the code: on
this input (one Paid row whose payment date cannot be parsed) the status
filter keeps a row, the date filter then drops everything, and the
function returns an empty report with no error at all. -/
theorem C3_counterexample :
    statusFiltered tblC3 ≠ [] ∧ dateFiltered tblC3 = [] ∧
    (process_invoices cfgStd tblC3).1 = Except.ok [] :=
  ⟨by with_unfolding_all decide, by with_unfolding_all decide,
   by with_unfolding_all decide⟩

/-- C3 (amended): if the status filter does not itself fail and the date
filter leaves zero rows (every surviving record lacks a parseable
last_payment_date), process_invoices raises nothing and returns an empty
report: the empty frame flows through grouping and derivation untouched. -/
theorem C3_amended_empty_report (cfg : Config) (t : Table)
    (hst : hasStdColumns t)
    (hne : ¬("Status" ∈ cleanHeaders t.headers ∧ (statusFiltered t).isEmpty))
    (hemp : dateFiltered t = []) :
    (process_invoices cfg t).1 = Except.ok [] := by
  unfold process_invoices
  rw [if_neg hne]
  simp [outputRows, aggregates, contacts, hemp]

/-- C3 witness: the amended statement instantiated at the concrete table
whose only payment date is unparseable. -/
theorem C3_witness :
    hasStdColumns tblC3 ∧ dateFiltered tblC3 = [] ∧
    (process_invoices cfgStd tblC3).1 = Except.ok [] :=
  ⟨by with_unfolding_all decide, by with_unfolding_all decide,
   C3_amended_empty_report cfgStd tblC3 (by with_unfolding_all decide)
     (by with_unfolding_all decide) (by with_unfolding_all decide)⟩

/-- A table whose single row is not Paid. -/
def tblC4 : Table :=
  { headers := stdHeaders,
    rows := [{ contact := "Best", status := "Sent", invoice_date := .missing,
               due_date := .parsed 0, last_payment_date := .parsed 3,
               invoice_total := 50 }] }

/-- C4: the claim says the zero-Paid-rows failure uses a NoPaidInvoicesError
distinct from a generic validation error. The code's only raise statement
(line 188) raises Python's builtin ValueError, the generic validation
type; the repository defines no NoPaidInvoicesError class. On a table with
a Status column and no Paid row the function fails with exactly that
generic ValueError. -/
theorem C4_counterexample :
    (process_invoices cfgStd tblC4).1 =
      Except.error (PyError.valueError noPaidMsg) := by
  with_unfolding_all decide

/-- C4 (amended): if a Status column is present and the status filter
retains zero rows, process_invoices fails with the generic builtin
ValueError carrying the no-paid-invoices message (not a distinct error
type). -/
theorem C4_amended_value_error (cfg : Config) (t : Table)
    (hstat : "Status" ∈ cleanHeaders t.headers)
    (hemp : statusFiltered t = []) :
    (process_invoices cfg t).1 = Except.error (PyError.valueError noPaidMsg) := by
  unfold process_invoices
  rw [if_pos ⟨hstat, by simp [hemp]⟩]

/-- C4 witness: the amended statement instantiated at the concrete table
with no Paid row. -/
theorem C4_witness :
    "Status" ∈ cleanHeaders tblC4.headers ∧ statusFiltered tblC4 = [] ∧
    (process_invoices cfgStd tblC4).1 =
      Except.error (PyError.valueError noPaidMsg) :=
  ⟨by with_unfolding_all decide, by with_unfolding_all decide,
   C4_amended_value_error cfgStd tblC4 (by with_unfolding_all decide)
     (by with_unfolding_all decide)⟩

/-- C5: every output row with high_value Yes has risk Normal; the risk rule
of lines 258-262 can only flag non-high-value contacts, so a high-value
contact is never High risk, whatever its delay count. -/
theorem C5_high_value_normal_risk (cfg : Config) (t : Table)
    (out : List OutRow) (row : OutRow) (hst : hasStdColumns t)
    (hok : (process_invoices cfg t).1 = Except.ok out) (hrow : row ∈ out)
    (hhv : row.high_value = "Yes") : row.risk = "Normal" := by
  have hout := process_invoices_ok hok
  subst hout
  rcases mem_outputRows hrow with ⟨a, ha, rfl⟩
  rw [deriveRow_risk, if_neg]
  rintro ⟨hno, _⟩
  rw [hhv] at hno
  exact absurd hno (by decide)

/-- C5 witness: the high-value contact of the worked scenario is Normal
risk despite two delays. -/
theorem C5_witness :
    acmeOut.high_value = "Yes" ∧ acmeOut.risk = "Normal" :=
  ⟨by with_unfolding_all decide,
   C5_high_value_normal_risk cfgStd tblC1 [acmeOut] acmeOut
     (by with_unfolding_all decide) (by with_unfolding_all decide)
     (by with_unfolding_all decide) (by with_unfolding_all decide)⟩

/-- C6: in every output row, late_fee_applicable holds exactly when the
contact's delay count is strictly greater than 1 (line 240); in particular
it is false at exactly one delay and true at exactly two. -/
theorem C6_late_fee_iff (cfg : Config) (t : Table) (out : List OutRow)
    (row : OutRow) (hst : hasStdColumns t)
    (hok : (process_invoices cfg t).1 = Except.ok out) (hrow : row ∈ out) :
    (row.late_fee_applicable = true ↔ 1 < row.number_of_delays) ∧
    (row.number_of_delays = 1 → row.late_fee_applicable = false) ∧
    (row.number_of_delays = 2 → row.late_fee_applicable = true) := by
  have hout := process_invoices_ok hok
  subst hout
  rcases mem_outputRows hrow with ⟨a, ha, rfl⟩
  rw [deriveRow_late_fee, deriveRow_number_of_delays]
  exact ⟨by simp, fun h => by simp [h], fun h => by simp [h]⟩

/-- C6 witness: the worked scenario's contact has two delays and an
applicable late fee. -/
theorem C6_witness :
    (acmeOut.late_fee_applicable = true ↔ 1 < acmeOut.number_of_delays) ∧
    (acmeOut.number_of_delays = 1 → acmeOut.late_fee_applicable = false) ∧
    (acmeOut.number_of_delays = 2 → acmeOut.late_fee_applicable = true) :=
  C6_late_fee_iff cfgStd tblC1 [acmeOut] acmeOut
    (by with_unfolding_all decide) (by with_unfolding_all decide)
    (by with_unfolding_all decide)

/-- C7: for valid inputs (standard columns, non-negative invoice totals,
non-negative credit terms and wacc, positive days_in_year) every output
row's revised_credit_term_days lies in the closed interval
[0, credit_term_days] and equals max(0, credit_term_days -
term_reduction_days), as computed on lines 252-255. -/
theorem C7_revised_terms_bounds (cfg : Config) (t : Table)
    (out : List OutRow) (row : OutRow) (hst : hasStdColumns t)
    (hct : 0 ≤ cfg.credit_terms) (hw : 0 ≤ cfg.wacc)
    (hdy : 0 < cfg.days_in_year) (ht : ∀ r ∈ t.rows, 0 ≤ r.invoice_total)
    (hok : (process_invoices cfg t).1 = Except.ok out) (hrow : row ∈ out) :
    0 ≤ row.revised_credit_terms ∧
    row.revised_credit_terms ≤ cfg.credit_terms ∧
    row.revised_credit_terms =
      max 0 (cfg.credit_terms - row.reduction_in_term_days) := by
  have hout := process_invoices_ok hok
  subst hout
  rcases mem_outputRows hrow with ⟨a, ha, rfl⟩
  have h0 : 0 ≤ relativeImpact
      (listMax ((aggregates cfg (dateFiltered t)).map
        fun a => a.late_payment_impact_amount))
      a.late_payment_impact_amount :=
    relativeImpact_nonneg (agg_impact_nonneg hw hdy ht ha)
  have hred := reduction_in_term_days_props cfg _ a.number_of_delays hct h0
  rw [deriveRow_revised, deriveRow_reduction]
  unfold revised_credit_terms
  exact ⟨le_max_left _ _, max_le hct (by linarith [hred.1]), rfl⟩

/-- C7 witness: in the worked scenario the revised terms are 25, inside
[0, 30], and equal max(0, 30 - 5). -/
theorem C7_witness :
    (0 : ℚ) ≤ cfgStd.credit_terms ∧
    (0 ≤ acmeOut.revised_credit_terms ∧
      acmeOut.revised_credit_terms ≤ cfgStd.credit_terms ∧
      acmeOut.revised_credit_terms =
        max 0 (cfgStd.credit_terms - acmeOut.reduction_in_term_days)) :=
  ⟨by with_unfolding_all decide,
   C7_revised_terms_bounds cfgStd tblC1 [acmeOut] acmeOut
     (by with_unfolding_all decide) (by with_unfolding_all decide)
     (by with_unfolding_all decide) (by with_unfolding_all decide)
     (by with_unfolding_all decide) (by with_unfolding_all decide)
     (by with_unfolding_all decide)⟩

/-- A paid row whose due date is entirely absent but whose payment date is
fine. -/
def rowC8 : Row :=
  { contact := "Acme", status := "Paid", invoice_date := .missing,
    due_date := .missing, last_payment_date := .parsed 5,
    invoice_total := 700 }

/-- Table holding `rowC8`. -/
def tblC8 : Table :=
  { headers := stdHeaders, rows := [rowC8] }

/-- C8: among the converted rows, the drop of line 202 removes exactly the
rows with a missing (unparseable) last_payment_date; a row whose due date
is missing is kept, its lateness comparison is false (pandas NaT
comparison), and it contributes zero late days and zero late impact. -/
theorem C8_drop_and_missing_due (cfg : Config) (t : Table) (r : Row)
    (hst : hasStdColumns t) (hr : r ∈ parsedRows t) :
    (r ∈ dateFiltered t ↔ r.last_payment_date ≠ DateCell.missing) ∧
    (r.due_date.toDate = none →
      is_late r = false ∧ days_late r = 0 ∧ late_impact cfg r = 0) := by
  constructor
  · unfold dateFiltered
    rw [List.mem_filter]
    simp [hr]
  · intro hdue
    have h1 : is_late r = false := by
      unfold is_late
      rw [hdue]
      cases r.last_payment_date.toDate <;> rfl
    refine ⟨h1, ?_, ?_⟩
    · unfold days_late
      rw [hdue]
      cases r.last_payment_date.toDate <;> rfl
    · unfold late_impact
      simp [h1]

/-- C8 witness: the concrete row with a missing due date is kept by the
date filter and contributes nothing. -/
theorem C8_witness :
    rowC8 ∈ parsedRows tblC8 ∧ rowC8.due_date.toDate = none ∧
    ((rowC8 ∈ dateFiltered tblC8 ↔ rowC8.last_payment_date ≠ DateCell.missing) ∧
      (rowC8.due_date.toDate = none →
        is_late rowC8 = false ∧ days_late rowC8 = 0 ∧
        late_impact cfgStd rowC8 = 0)) :=
  ⟨by with_unfolding_all decide, by with_unfolding_all decide,
   C8_drop_and_missing_due cfgStd tblC8 rowC8 (by with_unfolding_all decide)
     (by with_unfolding_all decide)⟩

/-- The aggregate of the worked scenario's single contact. -/
def acmeAgg : Agg :=
  { contact := "Acme", total_invoice_sum := 2000,
    late_payment_impact_amount := 556/100, number_of_delays := 2 }

/-- C9: with m the maximum late_impact_amount over all contacts, every
contact's Relative_Impact equals round(100 * amount / m, 2) when m is
strictly positive and 0 when m is 0; the guarded definition of lines
236-238 never divides by the maximum unless it is positive. -/
theorem C9_relative_impact (cfg : Config) (t : Table) (m : ℚ) (a : Agg)
    (hst : hasStdColumns t)
    (ha : a ∈ aggregates cfg (dateFiltered t))
    (hm : m = listMax ((aggregates cfg (dateFiltered t)).map
      fun g => g.late_payment_impact_amount)) :
    (0 < m → relativeImpact m a.late_payment_impact_amount =
      round2 (100 * a.late_payment_impact_amount / m)) ∧
    (m = 0 → relativeImpact m a.late_payment_impact_amount = 0) := by
  constructor
  · intro h
    unfold relativeImpact
    rw [if_pos h]
    congr 1
    ring
  · intro h
    subst h
    simp [relativeImpact]

/-- C9 witness: the worked scenario's contact, whose impact amount is
itself the maximum. -/
theorem C9_witness :
    acmeAgg ∈ aggregates cfgStd (dateFiltered tblC1) ∧
    ((0 < (556/100 : ℚ) →
        relativeImpact (556/100) acmeAgg.late_payment_impact_amount =
          round2 (100 * acmeAgg.late_payment_impact_amount / (556/100))) ∧
      ((556/100 : ℚ) = 0 →
        relativeImpact (556/100) acmeAgg.late_payment_impact_amount = 0)) :=
  ⟨by with_unfolding_all decide,
   C9_relative_impact cfgStd tblC1 (556/100) acmeAgg
     (by with_unfolding_all decide) (by with_unfolding_all decide)
     (by with_unfolding_all decide)⟩

/-- A table without a Status column and with a header containing spaces and
an unparseable due date, to exhibit the in-place mutation. -/
def tblC10 : Table :=
  { headers := ["Contact", "Invoice Date", "Due Date", "Last Payment Date",
                "Invoice Total"],
    rows := [{ contact := "Acme", status := "", invoice_date := .missing,
               due_date := .unparseable "soon", last_payment_date := .parsed 4,
               invoice_total := 10 }] }

/-- C10: process_invoices always leaves the caller's table with cleaned
(renamed) headers; when a Status column is present the caller's rows are
untouched (the filter of line 183 rebinds to a copy), and when it is
absent the caller's present date columns are overwritten with parsed
values, unparseable entries becoming missing. The second conjunct shows a
caller table that is actually changed by the call. -/
theorem C10_frame_effect :
    (∀ cfg t, (process_invoices cfg t).2 =
      { headers := cleanHeaders t.headers
        rows := if "Status" ∈ cleanHeaders t.headers then t.rows
                else t.rows.map (parseRowDates (cleanHeaders t.headers)) }) ∧
    (process_invoices cfgStd tblC10).2 ≠ tblC10 := by
  constructor
  · intro cfg t
    have h2 : (process_invoices cfg t).2 = callerTable t := by
      unfold process_invoices
      split <;> rfl
    rw [h2]
    unfold callerTable parsedRows statusFiltered
    by_cases hst : "Status" ∈ cleanHeaders t.headers <;> simp [hst]
  · with_unfolding_all decide
